import Mathlib

/-!
Shallow embedding of the adaptive routing core of `web-scraper-ultra`:
the Domain Reputation Store and Recovery Planner of `ban_detector.py`
and the Proxy Health Registry of `smart_proxy_manager.py`.

Python floats are modelled as rationals (ℚ); timestamps (`time.time()`,
`datetime.now()`) as rationals passed explicitly to each operation;
Python `None` as `Option.none`.  Dictionaries whose only consulted key
is fixed (a `BanEvent`'s `metadata['retry_after']`) are modelled by that
single optional field.
-/

/-- `BanType` enum of `ban_detector.py`. -/
inductive BanType where
  | NONE
  | RATE_LIMIT
  | IP_BAN
  | CAPTCHA
  | CLOUDFLARE
  | ACCESS_DENIED
  | BEHAVIORAL
  | GEOGRAPHIC
  | USER_AGENT
  | FINGERPRINT
  | TEMPORARY
  | PERMANENT
deriving DecidableEq, Repr

/-- `RecoveryStrategy` enum of `ban_detector.py`. -/
inductive RecoveryStrategy where
  | WAIT
  | ROTATE_PROXY
  | SOLVE_CAPTCHA
  | CHANGE_FINGERPRINT
  | SLOW_DOWN
  | CHANGE_PATTERN
  | BUILD_REPUTATION
  | ABANDON
deriving DecidableEq, Repr

/-- A ban event as appended by `BanDetector.record_ban`: a timestamp, the
ban type, and the `retry_after` entry of the metadata dict when present
(the only metadata key the code ever reads, in `calculate_wait_time`). -/
structure BanEvent where
  timestamp : ℚ
  btype : BanType
  retryAfter : Option ℚ
deriving DecidableEq

/-- One entry of `BanDetector.domain_reputation` (default value created
lazily by the `defaultdict`): request/success/ban counters, the time of
the last ban (`None` initially), and the reputation score. -/
structure Reputation where
  requests : ℕ
  successes : ℕ
  bans : ℕ
  lastBan : Option ℚ
  score : ℚ
deriving DecidableEq

/-- The fresh per-domain reputation record (`defaultdict` default). -/
def freshReputation : Reputation :=
  { requests := 0, successes := 0, bans := 0, lastBan := none, score := 1 }

/-- The per-domain slice of `BanDetector` state touched by
`record_ban` / `update_reputation` / `should_proceed` /
`calculate_wait_time`: the ban-event ring buffer (a `deque` with
`maxlen=100`, most recent event last) and the reputation record. -/
structure DomainState where
  history : List BanEvent
  reputation : Reputation
deriving DecidableEq

/-- Fresh per-domain state: empty history, fresh reputation. -/
def freshDomainState : DomainState :=
  { history := [], reputation := freshReputation }

/-- `BanDetector.record_ban` (ban_detector.py lines 213-229): append a
`BanEvent` to the bounded (`maxlen=100`) history, increment `bans`, set
`last_ban` to the current time, multiply the score by 0.9. -/
def record_ban (s : DomainState) (bt : BanType) (retryAfter : Option ℚ)
    (now : ℚ) : DomainState :=
  let h := s.history ++ [{ timestamp := now, btype := bt, retryAfter := retryAfter }]
  { history := if 100 < h.length then h.drop (h.length - 100) else h
    reputation :=
      { s.reputation with
          bans := s.reputation.bans + 1
          lastBan := some now
          score := s.reputation.score * (9/10) } }

/-- `BanDetector.update_reputation` (lines 347-358): increment `requests`;
on success increment `successes` and set `score := min 1 (score * 1.01)`;
on failure multiply the score by 0.95. -/
def update_reputation (s : DomainState) (success : Bool) : DomainState :=
  let r := s.reputation
  if success then
    { s with reputation :=
        { r with
            requests := r.requests + 1
            successes := r.successes + 1
            score := min 1 (r.score * (101/100)) } }
  else
    { s with reputation :=
        { r with
            requests := r.requests + 1
            score := r.score * (95/100) } }

/-- `BanDetector.should_proceed` (lines 360-378): false when the score is
below the reputation threshold 0.3, or the ban count exceeds the ban
threshold 10, or a ban was recorded less than 60 seconds ago.  The Python
guard `if reputation['last_ban']:` is a truthiness test, so a stored
timestamp of exactly 0 is skipped like `None`; `time.time()` is always
positive, so the case never arises in execution. -/
def should_proceed (r : Reputation) (now : ℚ) : Bool :=
  if r.score < 3/10 then false
  else if 10 < r.bans then false
  else
    match r.lastBan with
    | none => true
    | some t => if t = 0 then true else if now - t < 60 then false else true

/-- One mutation of a domain's state: a recorded ban (with the
`retry_after` metadata and the clock reading) or a reputation update. -/
inductive DomainOp where
  | ban (bt : BanType) (retryAfter : Option ℚ) (now : ℚ)
  | upd (success : Bool)
deriving DecidableEq

/-- Apply one `DomainOp`. -/
def applyDomainOp (s : DomainState) : DomainOp → DomainState
  | .ban bt ra now => record_ban s bt ra now
  | .upd success => update_reputation s success

/-- Apply a sequence of `DomainOp`s, oldest first. -/
def applyDomainOps (s : DomainState) (ops : List DomainOp) : DomainState :=
  ops.foldl applyDomainOp s

/-- The last five elements of a list (`lst[-5:]` on
`list(self.ban_history[domain])`). -/
def lastFive (l : List BanEvent) : List BanEvent :=
  l.drop (l.length - 5)

/-- The raising loop of `BanDetector.calculate_wait_time` (lines 266-270):
for each recent ban whose metadata carries `retry_after`, replace the wait
with the max of itself and that value. -/
def raiseByRetryAfter (l : List BanEvent) (w : ℚ) : ℚ :=
  l.foldl (fun acc e =>
    match e.retryAfter with
    | some r => max acc r
    | none => acc) w

/-- `BanDetector.calculate_wait_time` (lines 254-275): exponential backoff
`base(5) * 2^attempt` plus the random jitter (passed here as the explicit
parameter `jitter`, drawn by the code as `random.uniform(0, base)`), then
raised to any `retry_after` found in the five most recent ban events, then
capped at `max_wait_time` 300. -/
def calculate_wait_time (history : List BanEvent) (attempt : ℕ) (jitter : ℚ) : ℚ :=
  let waitTime := 5 * 2 ^ attempt + jitter
  let raised := raiseByRetryAfter (lastFive history) waitTime
  min raised 300

/-- The backoff formula as the specification words it: cap at `maxWait`
first, then raise to the `retry_after` values of the five most recent ban
events.  Stated for comparison with `calculate_wait_time`. -/
def claimWaitFormula (history : List BanEvent) (attempt : ℕ) (jitter : ℚ) : ℚ :=
  raiseByRetryAfter (lastFive history) (min (5 * 2 ^ attempt + jitter) 300)

/-- The `retry_after` metadata values among the five most recent ban
events. -/
def retryAfterValues (history : List BanEvent) : List ℚ :=
  (lastFive history).filterMap BanEvent.retryAfter

/-- `BanDetector.recovery_strategies` (lines 104-113): the ordered
strategy-preference table, keyed by ban type.  `NONE`, `ACCESS_DENIED`,
`TEMPORARY` and `PERMANENT` have no entry. -/
def recoveryStrategies : List (BanType × List RecoveryStrategy) :=
  [ (.RATE_LIMIT, [.WAIT, .SLOW_DOWN, .ROTATE_PROXY])
  , (.IP_BAN, [.ROTATE_PROXY, .WAIT])
  , (.CAPTCHA, [.SOLVE_CAPTCHA, .ROTATE_PROXY])
  , (.CLOUDFLARE, [.WAIT, .SOLVE_CAPTCHA, .CHANGE_FINGERPRINT])
  , (.BEHAVIORAL, [.CHANGE_PATTERN, .BUILD_REPUTATION])
  , (.GEOGRAPHIC, [.ROTATE_PROXY])
  , (.USER_AGENT, [.CHANGE_FINGERPRINT])
  , (.FINGERPRINT, [.CHANGE_FINGERPRINT, .ROTATE_PROXY]) ]

/-- One entry of `BanDetector.successful_recoveries[domain]` as appended
by `execute_recovery`: the ban type and the strategy that worked (the
timestamp is never read back, so it is omitted). -/
structure SuccessfulRecovery where
  banType : BanType
  strategy : RecoveryStrategy
deriving DecidableEq

/-- `BanDetector.get_recovery_strategy` (lines 231-252): look the ban type
up in the preference table with default `[WAIT]`; abandon when the score
is below 0.3 or the ban count exceeds 10; otherwise reuse the first
recorded successful recovery for this ban type, and failing that take the
first entry of the preference list (`WAIT` for an empty list).  The Python
`if domain in self.successful_recoveries:` guard is equivalent to the
loop over the (possibly empty) recovery list. -/
def get_recovery_strategy (r : Reputation) (recoveries : List SuccessfulRecovery)
    (bt : BanType) : RecoveryStrategy :=
  let strategies := (recoveryStrategies.lookup bt).getD [.WAIT]
  if r.score < 3/10 then .ABANDON
  else if 10 < r.bans then .ABANDON
  else
    match recoveries.find? (fun pr => pr.banType = bt) with
    | some pr => pr.strategy
    | none => strategies.headD .WAIT

/-- `startsWithL needle hay`: the needle is a prefix of the hay (character
lists). -/
def startsWithL : List Char → List Char → Bool
  | [], _ => true
  | _ :: _, [] => false
  | c :: cs, d :: ds => (c == d) && startsWithL cs ds

/-- `containsSub needle hay`: substring containment, Python's `in` on
strings. -/
def containsSub (needle : List Char) : List Char → Bool
  | [] => startsWithL needle []
  | l@(_ :: rest) => startsWithL needle l || containsSub needle rest

/-- One entry of `SmartProxyManager.proxy_health` (smart_proxy_manager.py
lines 32-45, the `defaultdict` default): success/failure counters, the
usage counter, the bounded response-time window, last-used/success/failure
times, the set of blocked sites, and the success-rate percentage (initial
100.0).  The `geolocation`/`isp`/`asn` fields are never written or read
by the registry operations and are omitted. -/
structure ProxyHealth where
  successCount : ℕ
  failureCount : ℕ
  totalRequests : ℕ
  responseTimes : List ℚ
  lastUsed : Option ℚ
  lastSuccess : Option ℚ
  lastFailure : Option ℚ
  blockedSites : List String
  successRate : ℚ
deriving DecidableEq

/-- The fresh `proxy_health` record. -/
def freshProxyHealth : ProxyHealth :=
  { successCount := 0, failureCount := 0, totalRequests := 0
    responseTimes := [], lastUsed := none, lastSuccess := none
    lastFailure := none, blockedSites := [], successRate := 100 }

/-- One entry of `SmartProxyManager.site_proxy_performance[url][proxy]`
(lines 48-52): the `defaultdict` default carries `success_rate = 0`,
`avg_response_time = 0` and `last_used = None`; `success_count` and
`total_count` are absent until first written and read back through
`.get(key, 0)`, so both are modelled as fields starting at 0. -/
structure SitePerf where
  successCount : ℕ
  totalCount : ℕ
  successRate : ℚ
  avgResponseTime : ℚ
  lastUsed : Option ℚ
deriving DecidableEq

/-- The fresh `site_proxy_performance` entry. -/
def freshSitePerf : SitePerf :=
  { successCount := 0, totalCount := 0, successRate := 0
    avgResponseTime := 0, lastUsed := none }

/-- `SmartProxyManager._update_proxy_usage` (lines 391-399) restricted to
the selected proxy's health record: set `last_used` to now and increment
`total_requests`.  (The remaining statement of the method accrues cost on
the manager's ledger, which no registry claim reads.) -/
def update_proxy_usage (h : ProxyHealth) (now : ℚ) : ProxyHealth :=
  { h with lastUsed := some now, totalRequests := h.totalRequests + 1 }

/-- `SmartProxyManager.report_proxy_result` (lines 401-450) for one
(proxy, url) pair: update the global health record (counters, blocked
sites on a "blocked" error text, success-rate percentage, bounded
response-time window) and the site-specific performance entry.  Python
truthiness of `response_time` makes `0` behave like `None`; likewise an
empty `error` string. -/
def report_proxy_result (h : ProxyHealth) (sp : SitePerf) (url : String)
    (success : Bool) (responseTime : Option ℚ) (error : Option String)
    (now : ℚ) : ProxyHealth × SitePerf :=
  let h1 :=
    if success then
      { h with successCount := h.successCount + 1, lastSuccess := some now }
    else
      let hf := { h with failureCount := h.failureCount + 1, lastFailure := some now }
      match error with
      | some e =>
          if e.toList ≠ [] ∧
             containsSub ([ 'b', 'l', 'o', 'c', 'k', 'e', 'd' ])
               (e.toList.map Char.toLower) = true then
            { hf with blockedSites :=
                if url ∈ hf.blockedSites then hf.blockedSites
                else url :: hf.blockedSites }
          else hf
      | none => hf
  let total := h1.successCount + h1.failureCount
  let h2 := { h1 with successRate :=
                if 0 < total then (h1.successCount : ℚ) / (total : ℚ) * 100
                else 100 }
  let h3 :=
    match responseTime with
    | some r =>
        if r = 0 then h2
        else
          let ts := h2.responseTimes ++ [r]
          { h2 with responseTimes := ts.drop (ts.length - 100) }
    | none => h2
  let sp1 := { sp with lastUsed := some now }
  let sp2 :=
    if success then
      let cs : ℕ := sp1.successCount + 1
      let ct : ℕ := sp1.totalCount + 1
      let spc := { sp1 with successCount := cs, totalCount := ct,
                            successRate := (cs : ℚ) / (ct : ℚ) }
      match responseTime with
      | some r =>
          if r = 0 then spc
          else { spc with avgResponseTime :=
                   (spc.avgResponseTime * ((ct : ℚ) - 1) + r) / (ct : ℚ) }
      | none => spc
    else sp1
  (h3, sp2)

/-- One registry operation touching a fixed (proxy, url) pair: a usage
update performed by `get_optimal_proxy` on the selected proxy, or an
outcome report. -/
inductive ProxyOp where
  | usage (now : ℚ)
  | report (url : String) (success : Bool) (responseTime : Option ℚ)
      (error : Option String) (now : ℚ)
deriving DecidableEq

/-- Apply one `ProxyOp` to the pair (global health, site entry). -/
def applyProxyOp (s : ProxyHealth × SitePerf) : ProxyOp → ProxyHealth × SitePerf
  | .usage now => (update_proxy_usage s.1 now, s.2)
  | .report url success rt err now => report_proxy_result s.1 s.2 url success rt err now

/-- Apply a sequence of `ProxyOp`s, oldest first. -/
def applyProxyOps (s : ProxyHealth × SitePerf) (ops : List ProxyOp) :
    ProxyHealth × SitePerf :=
  ops.foldl applyProxyOp s

/-- Number of outcome reports in an operation sequence. -/
def countReports (ops : List ProxyOp) : ℕ :=
  ops.countP (fun op => match op with | .report _ _ _ _ _ => true | _ => false)

/-- Number of usage updates in an operation sequence. -/
def countUsages (ops : List ProxyOp) : ℕ :=
  ops.countP (fun op => match op with | .usage _ => true | _ => false)

/-- Number of successful outcome reports in an operation sequence. -/
def countSuccessReports (ops : List ProxyOp) : ℕ :=
  ops.countP (fun op => match op with | .report _ true _ _ _ => true | _ => false)

/-- Whether an operation, if it is a success report, carries a truthy
response time (Python truthiness: `None` and `0` both skip the
response-time update in `report_proxy_result`). -/
def successRtTruthy : ProxyOp → Bool
  | .report _ true (some r) _ _ => if r = 0 then false else true
  | .report _ true none _ _ => false
  | _ => true

/-- Sum of the response times carried by the success reports of an
operation sequence (0 for any other operation). -/
def sumSuccessRt : List ProxyOp → ℚ
  | [] => 0
  | op :: rest =>
      (match op with | .report _ true (some r) _ _ => r | _ => 0) + sumSuccessRt rest

/-- `SmartProxyManager.cleanup_failed_proxies` (lines 507-530) on a pool
of proxies paired with their health records (the code's per-type pools and
the health dict, flattened): collect every proxy with `total_requests >
20` and `success_rate < threshold * 100` and remove it; with distinct
proxy entries the collect-then-remove loop is removal of exactly the
matching elements, i.e. a filter. -/
def cleanup_failed_proxies (pool : List (String × ProxyHealth)) (threshold : ℚ) :
    List (String × ProxyHealth) :=
  pool.filter (fun p =>
    ! (decide (20 < p.2.totalRequests) && decide (p.2.successRate < threshold * 100)))

/-- The fragment of Python regular expressions used by
`BanDetector.ban_patterns`: literals, `.` (any character except newline),
`X?` applied to `.`, concatenation, and one `(a|b)` alternation.  `eps`
is the empty regex closing a concatenation chain. -/
inductive RE where
  | eps
  | lit (c : Char)
  | dot
  | opt (r : RE)
  | cat (a b : RE)
  | alt (a b : RE)

/-- All suffixes of `s` remaining after `re` matches a prefix of `s`
(backtracking match, empty list when no prefix matches). -/
def remainders : RE → List Char → List (List Char)
  | .eps, s => [s]
  | .lit _, [] => []
  | .lit c, d :: ds => if c == d then [ds] else []
  | .dot, [] => []
  | .dot, d :: ds => if d == '\n' then [] else [ds]
  | .opt r, s => s :: remainders r s
  | .cat a b, s => (remainders a s).flatMap (remainders b)
  | .alt a b, s => remainders a s ++ remainders b s

/-- `re.search`: does the pattern match starting at some position? -/
def reSearch (re : RE) : List Char → Bool
  | [] => !(remainders re []).isEmpty
  | l@(_ :: rest) => !(remainders re l).isEmpty || reSearch re rest

/-- A literal string as a regex. -/
def rstr (s : String) : RE :=
  s.toList.foldr (fun c r => RE.cat (RE.lit c) r) RE.eps

/-- The `.?` fragment appearing between words in the source's patterns. -/
def qd : RE := RE.opt RE.dot

/-- Concatenation of a list of regexes. -/
def rcat (l : List RE) : RE := l.foldr RE.cat RE.eps

/-- `BanDetector.ban_patterns` (ban_detector.py lines 48-102), in the
dict's insertion order (the order the body scan iterates in). -/
def banPatterns : List (BanType × List RE) :=
  [ (.RATE_LIMIT,
      [ rcat [ rstr "rate", qd, rstr "limit" ]
      , rcat [ rstr "too", qd, rstr "many", qd, rstr "requests" ]
      , rstr "429"
      , rcat [ rstr "slow", qd, rstr "down" ]
      , rstr "throttl"
      , rcat [ rstr "exceeded", qd, rstr "quota" ] ])
  , (.IP_BAN,
      [ rstr "blocked"
      , rstr "banned"
      , rstr "forbidden"
      , rstr "403"
      , rcat [ rstr "access", qd, rstr "denied" ]
      , rcat [ rstr "unauthorized", qd, rstr "access" ]
      , rcat [ rstr "ip", qd, rstr "block" ] ])
  , (.CAPTCHA,
      [ rstr "captcha"
      , rstr "recaptcha"
      , rstr "hcaptcha"
      , rstr "challenge"
      , rcat [ rstr "verify", qd, rstr "you", qd, rstr "are", qd, rstr "human" ]
      , rcat [ rstr "robot", qd, rstr "check" ]
      , rcat [ rstr "security", qd, rstr "check" ] ])
  , (.CLOUDFLARE,
      [ rstr "cloudflare"
      , rstr "cf-ray"
      , rcat [ rstr "checking", qd, rstr "your", qd, rstr "browser" ]
      , rcat [ rstr "ddos", qd, rstr "protection" ]
      , rcat [ rstr "please", qd, rstr "wait" ]
      , rcat [ rstr "security", qd, rstr "check", qd, rstr "cloudflare" ] ])
  , (.BEHAVIORAL,
      [ rcat [ rstr "suspicious", qd, rstr "activity" ]
      , rcat [ rstr "unusual", qd, rstr "traffic" ]
      , rcat [ rstr "automated", qd, rstr "behavior" ]
      , rcat [ rstr "bot", qd, rstr "detected" ]
      , rcat [ rstr "non", qd, rstr "human" ] ])
  , (.GEOGRAPHIC,
      [ rcat [ rstr "not", qd, rstr "available", qd, rstr "in", qd, rstr "your", qd,
               RE.alt (rstr "country") (rstr "region") ]
      , rcat [ rstr "geo", qd, rstr "block" ]
      , rcat [ rstr "location", qd, rstr "restricted" ]
      , rcat [ rstr "content", qd, rstr "not", qd, rstr "available" ] ])
  , (.USER_AGENT,
      [ rcat [ rstr "unsupported", qd, rstr "browser" ]
      , rcat [ rstr "update", qd, rstr "your", qd, rstr "browser" ]
      , rcat [ rstr "browser", qd, rstr "not", qd, rstr "supported" ]
      , rcat [ rstr "invalid", qd, rstr "user", qd, rstr "agent" ] ]) ]

/-- The `error_indicators` literals of `detect_ban` (lines 197-203). -/
def errorIndicators : List String :=
  [ "<title>access denied</title>"
  , "<title>403 forbidden</title>"
  , "<title>error</title>"
  , "class=\"error-page\""
  , "id=\"challenge-form\"" ]

/-- Input to `BanDetector.detect_ban`: an optional status code, optional
body text, and string-valued headers (a `None` headers dict and an empty
one behave identically under Python truthiness, so both are the empty
list).  The unused `response` parameter of the Python signature is
omitted. -/
structure FetchInput where
  statusCode : Option ℕ
  htmlContent : Option String
  headers : List (String × String)

/-- The `headers_lower` dict comprehension (lines 175-176) on
string-valued headers: lower-case every key and value (kept as a list of
pairs; duplicate lowered keys resolve to the later pair, matching dict
semantics, via `getLastValue`). -/
def headersLower (hs : List (String × String)) : List (List Char × List Char) :=
  hs.map (fun p => (p.1.toList.map Char.toLower, p.2.toList.map Char.toLower))

/-- Key membership in the lowered headers (`k in headers_lower`). -/
def hasKey (hs : List (List Char × List Char)) (k : List Char) : Bool :=
  hs.any (fun p => p.1 == k)

/-- `headers_lower.get(k, dflt)` with later duplicate keys overriding. -/
def getLastValue (hs : List (List Char × List Char)) (k : List Char)
    (dflt : List Char) : List Char :=
  hs.foldl (fun acc p => if p.1 == k then p.2 else acc) dflt

/-- The status-code priors of `detect_ban` (lines 148-155) for a truthy
status code other than 429: 403 → (IP_BAN, 0.8); 503 → (CLOUDFLARE, 0.7);
other ≥400 → confidence 0.5 with the type still NONE. -/
def statusPrior (n : ℕ) : BanType × ℚ :=
  if n = 403 then (.IP_BAN, 8/10)
  else if n = 503 then (.CLOUDFLARE, 7/10)
  else if 400 ≤ n then (.NONE, 1/2)
  else (.NONE, 0)

/-- The body pattern scan of `detect_ban` (lines 158-171): for each ban
type in dict order, count matching patterns; a positive count yields
confidence `min (count * 0.3) 0.95`, adopted when strictly above the
current confidence. -/
def bodyScanList (content : List Char) :
    List (BanType × List RE) → BanType × ℚ → BanType × ℚ
  | [], s => s
  | bp :: rest, s =>
      let ms : ℕ := (bp.2.filter (fun p => reSearch p content)).length
      let s' :=
        if 0 < ms then
          let pc : ℚ := min ((ms : ℚ) * (3/10)) (95/100)
          if s.2 < pc then (bp.1, pc) else s
        else s
      bodyScanList content rest s'

/-- The body scan applied to the source's pattern table. -/
def bodyScan (content : List Char) (s : BanType × ℚ) : BanType × ℚ :=
  bodyScanList content banPatterns s

/-- The header block of `detect_ban` (lines 174-192), entered only for a
truthy headers dict: the Cloudflare corroboration may update the pending
state, then a zero `x-ratelimit-remaining` or a `retry-after` key returns
early (`Sum.inl`); otherwise the updated state continues (`Sum.inr`). -/
def headerStep (hdrs : List (String × String)) (s : BanType × ℚ) :
    (BanType × ℚ) ⊕ (BanType × ℚ) :=
  let hl := headersLower hdrs
  let s1 :=
    if hasKey hl ("cf-ray".toList) || hasKey hl ("cf-cache-status".toList) then
      if s.1 = .NONE then (BanType.CLOUDFLARE, max s.2 (6/10)) else s
    else s
  if hasKey hl ("x-ratelimit-remaining".toList) &&
     (getLastValue hl ("x-ratelimit-remaining".toList) ("1".toList) == "0".toList) then
    Sum.inl (.RATE_LIMIT, 99/100)
  else if hasKey hl ("retry-after".toList) then
    Sum.inl (.RATE_LIMIT, 95/100)
  else
    Sum.inr s1

/-- The error-page fallback of `detect_ban` (lines 195-209), entered only
when the body is truthy and the type is still NONE: any indicator
substring sets (ACCESS_DENIED, 0.7). -/
def errorPageStep (content : List Char) (s : BanType × ℚ) : BanType × ℚ :=
  if s.1 = .NONE then
    if errorIndicators.any (fun ind => containsSub ind.toList content) then
      (.ACCESS_DENIED, 7/10)
    else s
  else s

/-- The stages of `detect_ban` after the status-code step: body scan,
header block (with its early returns), error-page fallback. -/
def detectRest (inp : FetchInput) (s0 : BanType × ℚ) : BanType × ℚ :=
  let htmlTruthy : Bool :=
    match inp.htmlContent with
    | some h => !h.isEmpty
    | none => false
  let content : List Char :=
    match inp.htmlContent with
    | some h => h.toList.map Char.toLower
    | none => []
  let s1 := if htmlTruthy then bodyScan content s0 else s0
  let afterHeaders :=
    if inp.headers.isEmpty then Sum.inr s1 else headerStep inp.headers s1
  match afterHeaders with
  | .inl r => r
  | .inr s2 => if htmlTruthy then errorPageStep content s2 else s2

/-- `BanDetector.detect_ban` (lines 138-211).  A truthy status code of
429 returns (RATE_LIMIT, 0.95) immediately; otherwise the status prior
seeds the state and the remaining stages run.  Totality of this
definition models the classifier never raising. -/
def detect_ban (inp : FetchInput) : BanType × ℚ :=
  match inp.statusCode with
  | some n =>
      if n ≠ 0 then
        if n = 429 then (.RATE_LIMIT, 95/100)
        else detectRest inp (statusPrior n)
      else detectRest inp (.NONE, 0)
  | none => detectRest inp (.NONE, 0)

/-- Absence of any ban signal in the input, phrased over the embedded
scanners: no truthy status code ≥ 400, no body pattern match, no
error-page indicator, and none of the four header signals. -/
def noBanSignalB (inp : FetchInput) : Bool :=
  let content : List Char :=
    match inp.htmlContent with
    | some h => h.toList.map Char.toLower
    | none => []
  let statusOk : Bool :=
    match inp.statusCode with
    | some n => n == 0 || decide (n < 400)
    | none => true
  let bodyOk : Bool :=
    banPatterns.all (fun bp => bp.2.all (fun p => !(reSearch p content)))
  let indicatorsOk : Bool :=
    errorIndicators.all (fun ind => !(containsSub ind.toList content))
  let hl := headersLower inp.headers
  let headersOk : Bool :=
    !(hasKey hl ("cf-ray".toList)) && !(hasKey hl ("cf-cache-status".toList)) &&
    !(hasKey hl ("retry-after".toList)) &&
    !(hasKey hl ("x-ratelimit-remaining".toList) &&
      (getLastValue hl ("x-ratelimit-remaining".toList) ("1".toList) == "0".toList))
  statusOk && bodyOk && indicatorsOk && headersOk

lemma applyDomainOp_score_pos (s : DomainState) (op : DomainOp)
    (h : 0 < s.reputation.score) : 0 < (applyDomainOp s op).reputation.score := by
  cases op with
  | ban bt ra now =>
      show 0 < s.reputation.score * (9/10)
      exact mul_pos h (by norm_num)
  | upd success =>
      cases success with
      | false =>
          show 0 < s.reputation.score * (95/100)
          exact mul_pos h (by norm_num)
      | true =>
          show 0 < min 1 (s.reputation.score * (101/100))
          exact lt_min one_pos (mul_pos h (by norm_num))

lemma applyDomainOps_score_pos (ops : List DomainOp) (s : DomainState)
    (h : 0 < s.reputation.score) : 0 < (applyDomainOps s ops).reputation.score := by
  induction ops generalizing s with
  | nil => simpa [applyDomainOps] using h
  | cons op rest ih =>
      simpa [applyDomainOps, List.foldl_cons] using
        ih (applyDomainOp s op) (applyDomainOp_score_pos s op h)

lemma applyDomainOp_score_unit (s : DomainState) (op : DomainOp)
    (h0 : 0 ≤ s.reputation.score) (h1 : s.reputation.score ≤ 1) :
    0 ≤ (applyDomainOp s op).reputation.score ∧
      (applyDomainOp s op).reputation.score ≤ 1 := by
  cases op with
  | ban bt ra now =>
      constructor
      · show 0 ≤ s.reputation.score * (9/10)
        exact mul_nonneg h0 (by norm_num)
      · show s.reputation.score * (9/10) ≤ 1
        nlinarith
  | upd success =>
      cases success with
      | false =>
          constructor
          · show 0 ≤ s.reputation.score * (95/100)
            exact mul_nonneg h0 (by norm_num)
          · show s.reputation.score * (95/100) ≤ 1
            nlinarith
      | true =>
          constructor
          · show 0 ≤ min 1 (s.reputation.score * (101/100))
            exact le_min (by norm_num) (mul_nonneg h0 (by norm_num))
          · show min 1 (s.reputation.score * (101/100)) ≤ 1
            exact min_le_left _ _

lemma applyDomainOps_score_unit (ops : List DomainOp) (s : DomainState)
    (h0 : 0 ≤ s.reputation.score) (h1 : s.reputation.score ≤ 1) :
    0 ≤ (applyDomainOps s ops).reputation.score ∧
      (applyDomainOps s ops).reputation.score ≤ 1 := by
  induction ops generalizing s with
  | nil => exact ⟨by simpa [applyDomainOps] using h0, by simpa [applyDomainOps] using h1⟩
  | cons op rest ih =>
      have hstep := applyDomainOp_score_unit s op h0 h1
      simpa [applyDomainOps, List.foldl_cons] using
        ih (applyDomainOp s op) hstep.1 hstep.2

lemma foldl_record_ban_bans (l : List (BanType × Option ℚ × ℚ)) (s : DomainState) :
    (l.foldl (fun acc p => record_ban acc p.1 p.2.1 p.2.2) s).reputation.bans
      = s.reputation.bans + l.length := by
  induction l generalizing s with
  | nil => simp
  | cons p rest ih =>
      simp only [List.foldl_cons, List.length_cons]
      rw [ih]
      have : (record_ban s p.1 p.2.1 p.2.2).reputation.bans = s.reputation.bans + 1 := rfl
      rw [this]
      omega

/-- **C1.** `should_proceed` returns false exactly when the reputation
score is below the threshold 0.3, or the ban count exceeds the threshold
10, or a ban was recorded within the last 60 seconds (over the reachable
states, whose `last_ban` timestamps are positive clock readings), and
true otherwise; and after 11 `record_ban` calls on a fresh domain it
returns false. -/
theorem shouldProceed_characterization :
    (∀ (r : Reputation) (now : ℚ),
        (∀ t, r.lastBan = some t → 0 < t) →
        (should_proceed r now = false ↔
          (r.score < 3/10 ∨ 10 < r.bans ∨ ∃ t, r.lastBan = some t ∧ now - t < 60)))
    ∧ ∀ (l : List (BanType × Option ℚ × ℚ)) (now : ℚ),
        l.length = 11 →
        should_proceed
          (l.foldl (fun acc p => record_ban acc p.1 p.2.1 p.2.2)
            freshDomainState).reputation now = false := by
  constructor
  · intro r now hpos
    rcases hr : r.lastBan with _ | t
    · simp only [should_proceed, hr]
      simp [hr]
      constructor
      · intro h
        rcases lt_or_le r.score (3/10) with hs | hs
        · exact Or.inl hs
        · exact Or.inr (h hs)
      · rintro (h | h) hs
        · exact absurd h (not_lt.mpr hs)
        · exact h
    · have ht : 0 < t := hpos t hr
      simp only [should_proceed, hr]
      simp [hr]
      constructor
      · intro h
        rcases lt_or_le r.score (3/10) with hs | hs
        · exact Or.inl hs
        · rcases lt_or_le 10 r.bans with hb | hb
          · exact Or.inr (Or.inl hb)
          · exact Or.inr (Or.inr (h hs hb).2)
      · rintro (h | h | h) hs hb
        · exact absurd h (not_lt.mpr hs)
        · exact absurd h (not_lt.mpr hb)
        · exact ⟨ne_of_gt ht, h⟩
  · intro l now hlen
    have hb := foldl_record_ban_bans l freshDomainState
    rw [hlen] at hb
    have hfresh : freshDomainState.reputation.bans = 0 := rfl
    rw [hfresh] at hb
    unfold should_proceed
    rw [hb]
    split_ifs with h1 h2
    · rfl
    · rfl
    · exact absurd (by norm_num : 10 < 0 + 11) h2

/-- Eleven recorded bans, for the C1 witness. -/
def elevenBans : List (BanType × Option ℚ × ℚ) :=
  List.replicate 11 (BanType.RATE_LIMIT, none, 100)

/-- Witness for C1 at concrete inputs. -/
theorem shouldProceed_characterization_witness :
    (should_proceed
      (elevenBans.foldl (fun acc p => record_ban acc p.1 p.2.1 p.2.2)
        freshDomainState).reputation 1000 = false)
    ∧ (should_proceed freshReputation 1000 = false ↔
        (freshReputation.score < 3/10 ∨ 10 < freshReputation.bans ∨
          ∃ t, freshReputation.lastBan = some t ∧ 1000 - t < 60)) :=
  ⟨shouldProceed_characterization.2 elevenBans 1000 (by simp [elevenBans]),
   shouldProceed_characterization.1 freshReputation 1000
     (by intro t ht; simp [freshReputation] at ht)⟩

/-- **C6.** In every reachable state (any operation sequence from a fresh
domain), a `record_ban` strictly decreases the reputation score: the
score stays strictly positive, so multiplying by 0.9 loses value. -/
theorem recordBan_score_strict_decrease (ops : List DomainOp) (bt : BanType)
    (ra : Option ℚ) (now : ℚ) :
    (record_ban (applyDomainOps freshDomainState ops) bt ra now).reputation.score
      < (applyDomainOps freshDomainState ops).reputation.score := by
  have hpos : 0 < (applyDomainOps freshDomainState ops).reputation.score :=
    applyDomainOps_score_pos ops freshDomainState (by norm_num [freshDomainState, freshReputation])
  show (applyDomainOps freshDomainState ops).reputation.score * (9/10)
      < (applyDomainOps freshDomainState ops).reputation.score
  nlinarith

/-- **C7.** The reputation score starts at 1.0 on creation of the record
and stays within [0, 1] under every sequence of `record_ban` and
`update_reputation` operations. -/
theorem reputation_score_in_unit_interval :
    freshReputation.score = 1 ∧
    ∀ ops : List DomainOp,
      0 ≤ (applyDomainOps freshDomainState ops).reputation.score ∧
      (applyDomainOps freshDomainState ops).reputation.score ≤ 1 := by
  constructor
  · rfl
  · intro ops
    exact applyDomainOps_score_unit ops freshDomainState
      (by norm_num [freshDomainState, freshReputation])
      (by norm_num [freshDomainState, freshReputation])

lemma raiseByRetryAfter_nil (w : ℚ) : raiseByRetryAfter [] w = w := rfl

lemma raiseByRetryAfter_cons (e : BanEvent) (rest : List BanEvent) (w : ℚ) :
    raiseByRetryAfter (e :: rest) w
      = raiseByRetryAfter rest
          (match e.retryAfter with | some r => max w r | none => w) := rfl

lemma raiseByRetryAfter_eq_foldl (l : List BanEvent) (w : ℚ) :
    raiseByRetryAfter l w = (l.filterMap BanEvent.retryAfter).foldl max w := by
  induction l generalizing w with
  | nil => rfl
  | cons e rest ih =>
      rw [raiseByRetryAfter_cons]
      cases he : e.retryAfter with
      | none => simp [List.filterMap_cons, he, ih]
      | some r => simp [List.filterMap_cons, he, ih]

lemma raiseByRetryAfter_mono (l : List BanEvent) {w w' : ℚ} (h : w ≤ w') :
    raiseByRetryAfter l w ≤ raiseByRetryAfter l w' := by
  induction l generalizing w w' with
  | nil => simpa using h
  | cons e rest ih =>
      rw [raiseByRetryAfter_cons, raiseByRetryAfter_cons]
      cases he : e.retryAfter with
      | none => simpa [he] using ih h
      | some r => simpa [he] using ih (max_le_max h (le_refl r))

lemma foldl_max_min_comm (l : List ℚ) (w : ℚ) (h : ∀ r ∈ l, r ≤ 300) :
    min (l.foldl max w) 300 = l.foldl max (min w 300) := by
  induction l generalizing w with
  | nil => simp
  | cons r rest ih =>
      simp only [List.foldl_cons]
      have hr : r ≤ 300 := h r (by simp)
      rw [ih (max w r) (fun x hx => h x (by simp [hx]))]
      have : min (max w r) 300 = max (min w 300) r := by
        rcases le_total w 300 with hw | hw <;>
          rcases le_total w r with hwr | hwr <;>
          simp [min_def, max_def, hw, hwr, hr] <;> linarith
      rw [this]

/-- The concrete ban event for the C3 counterexample: its `retry_after`
metadata of 400 exceeds `max_wait_time` 300. -/
def retryEvent400 : BanEvent :=
  { timestamp := 0, btype := .RATE_LIMIT, retryAfter := some 400 }

/-- **C3 counterexample.** The claim applies the 300 cap before raising
by `retry_after`; the code raises first and caps last, so a 400-second
`retry_after` yields 300 from the code but 400 from the claimed formula
(attempt 0, jitter 0). -/
theorem calculateWaitTime_formula_counterexample :
    calculate_wait_time [ retryEvent400 ] 0 0 = 300
    ∧ claimWaitFormula [ retryEvent400 ] 0 0 = 400
    ∧ calculate_wait_time [ retryEvent400 ] 0 0 ≠ claimWaitFormula [ retryEvent400 ] 0 0 := by
  norm_num [calculate_wait_time, claimWaitFormula, raiseByRetryAfter, lastFive, retryEvent400]

/-- **C3 amended.** The wait equals the backoff term raised to the
`retry_after` values of the five most recent ban events and THEN capped at
300; the claim's cap-first formula agrees whenever no `retry_after`
exceeds 300. -/
theorem calculateWaitTime_formula_amended (history : List BanEvent) (attempt : ℕ)
    (jitter : ℚ) (h : ∀ r ∈ retryAfterValues history, r ≤ 300) :
    calculate_wait_time history attempt jitter
      = min ((retryAfterValues history).foldl max (5 * 2 ^ attempt + jitter)) 300
    ∧ calculate_wait_time history attempt jitter = claimWaitFormula history attempt jitter := by
  constructor
  · simp only [calculate_wait_time, retryAfterValues, raiseByRetryAfter_eq_foldl]
  · simp only [calculate_wait_time, claimWaitFormula, raiseByRetryAfter_eq_foldl]
    exact foldl_max_min_comm _ _ h

/-- Witness for the C3 amended theorem at a concrete input. -/
theorem calculateWaitTime_formula_amended_witness :
    calculate_wait_time [] 1 2
      = min ((retryAfterValues []).foldl max (5 * 2 ^ 1 + 2)) 300
    ∧ calculate_wait_time [] 1 2 = claimWaitFormula [] 1 2 :=
  calculateWaitTime_formula_amended [] 1 2
    (by intro r hr; simp [retryAfterValues, lastFive] at hr)

/-- **C4.** For a fixed jitter in [0, base] and fixed ban history, the
backoff wait is non-decreasing in the attempt number, and never exceeds
`max_wait_time` 300. -/
theorem calculateWaitTime_monotone_and_capped (history : List BanEvent)
    (jitter : ℚ) (a1 a2 : ℕ) (hj0 : 0 ≤ jitter) (hj5 : jitter ≤ 5)
    (h12 : a1 ≤ a2) :
    calculate_wait_time history a1 jitter ≤ calculate_wait_time history a2 jitter
    ∧ calculate_wait_time history a2 jitter ≤ 300 := by
  constructor
  · have hp : (2:ℚ) ^ a1 ≤ 2 ^ a2 := pow_le_pow_right₀ (by norm_num) h12
    have hw : 5 * 2 ^ a1 + jitter ≤ 5 * 2 ^ a2 + jitter := by linarith
    simp only [calculate_wait_time]
    exact min_le_min (raiseByRetryAfter_mono _ hw) (le_refl _)
  · simp only [calculate_wait_time]
    exact min_le_right _ _

/-- Witness for C4 at concrete inputs. -/
theorem calculateWaitTime_monotone_and_capped_witness :
    calculate_wait_time [ retryEvent400 ] 1 3 ≤ calculate_wait_time [ retryEvent400 ] 4 3
    ∧ calculate_wait_time [ retryEvent400 ] 4 3 ≤ 300 :=
  calculateWaitTime_monotone_and_capped [ retryEvent400 ] 3 1 4
    (by norm_num) (by norm_num) (by norm_num)

/-- The relation `report_proxy_result` (re)establishes between the stored
`success_rate` percentage and the counters of a health record. -/
def healthRateInv (h : ProxyHealth) : Prop :=
  h.successRate =
    if 0 < h.successCount + h.failureCount
    then (h.successCount : ℚ) / ((h.successCount + h.failureCount : ℕ) : ℚ) * 100
    else 100

/-- The relation the site entry's fields keep under reporting: the
success and total counters coincide (both count success reports only)
and the stored rate is their quotient (0 before any success). -/
def sitePerfInv (sp : SitePerf) : Prop :=
  sp.successCount = sp.totalCount ∧
  sp.successRate = if 0 < sp.totalCount then 1 else 0

lemma report_result_fst_counts (h : ProxyHealth) (sp : SitePerf) (url : String)
    (s : Bool) (rt : Option ℚ) (e : Option String) (now : ℚ) :
    ((report_proxy_result h sp url s rt e now).1.successCount
        + (report_proxy_result h sp url s rt e now).1.failureCount
        = h.successCount + h.failureCount + 1)
    ∧ (report_proxy_result h sp url s rt e now).1.totalRequests = h.totalRequests := by
  cases s <;> cases rt <;> cases e
  all_goals simp [report_proxy_result]
  all_goals try split_ifs
  all_goals try simp
  all_goals omega

lemma report_result_rate_inv (h : ProxyHealth) (sp : SitePerf) (url : String)
    (s : Bool) (rt : Option ℚ) (e : Option String) (now : ℚ) :
    healthRateInv (report_proxy_result h sp url s rt e now).1 := by
  cases s <;> cases rt <;> cases e
  all_goals simp [report_proxy_result, healthRateInv]
  all_goals try split_ifs
  all_goals try simp_all

lemma report_result_site (h : ProxyHealth) (sp : SitePerf) (url : String)
    (s : Bool) (rt : Option ℚ) (e : Option String) (now : ℚ)
    (hinv : sitePerfInv sp) :
    sitePerfInv (report_proxy_result h sp url s rt e now).2
    ∧ (report_proxy_result h sp url s rt e now).2.successCount
        = sp.successCount + (if s then 1 else 0)
    ∧ (report_proxy_result h sp url s rt e now).2.totalCount
        = sp.totalCount + (if s then 1 else 0) := by
  obtain ⟨hc, hr⟩ := hinv
  cases s <;> cases rt <;> cases e
  all_goals simp_all [report_proxy_result, sitePerfInv]
  all_goals try split_ifs
  all_goals try rw [div_self (by positivity)]
  all_goals simp_all

lemma applyProxyOps_spec (ops : List ProxyOp) (s : ProxyHealth × SitePerf)
    (hh : healthRateInv s.1) (hs : sitePerfInv s.2) :
    healthRateInv (applyProxyOps s ops).1
    ∧ sitePerfInv (applyProxyOps s ops).2
    ∧ (applyProxyOps s ops).1.successCount + (applyProxyOps s ops).1.failureCount
        = s.1.successCount + s.1.failureCount + countReports ops
    ∧ (applyProxyOps s ops).1.totalRequests = s.1.totalRequests + countUsages ops
    ∧ (applyProxyOps s ops).2.successCount = s.2.successCount + countSuccessReports ops
    ∧ (applyProxyOps s ops).2.totalCount = s.2.totalCount + countSuccessReports ops := by
  induction ops generalizing s with
  | nil =>
      simp [applyProxyOps, countReports, countUsages, countSuccessReports, hh, hs]
  | cons op rest ih =>
      have hfold : applyProxyOps s (op :: rest) = applyProxyOps (applyProxyOp s op) rest := by
        simp [applyProxyOps, List.foldl_cons]
      rw [hfold]
      cases op with
      | usage now' =>
          have hh' : healthRateInv (applyProxyOp s (.usage now')).1 := by
            simpa [applyProxyOp, update_proxy_usage, healthRateInv] using hh
          have hs' : sitePerfInv (applyProxyOp s (.usage now')).2 := by
            simpa [applyProxyOp] using hs
          obtain ⟨ih1, ih2, ih3, ih4, ih5, ih6⟩ := ih (applyProxyOp s (.usage now')) hh' hs'
          refine ⟨ih1, ih2, ?_, ?_, ?_, ?_⟩
          · rw [ih3]
            simp [applyProxyOp, update_proxy_usage, countReports, List.countP_cons]
          · rw [ih4]
            simp [applyProxyOp, update_proxy_usage, countUsages, List.countP_cons]
            omega
          · rw [ih5]
            simp [applyProxyOp, countSuccessReports, List.countP_cons]
          · rw [ih6]
            simp [applyProxyOp, countSuccessReports, List.countP_cons]
      | report url' succ rt e now' =>
          have hh' : healthRateInv (applyProxyOp s (.report url' succ rt e now')).1 :=
            report_result_rate_inv s.1 s.2 url' succ rt e now'
          obtain ⟨hsite, hsc, htc⟩ := report_result_site s.1 s.2 url' succ rt e now' hs
          obtain ⟨hcnt, htr⟩ := report_result_fst_counts s.1 s.2 url' succ rt e now'
          obtain ⟨ih1, ih2, ih3, ih4, ih5, ih6⟩ :=
            ih (applyProxyOp s (.report url' succ rt e now')) hh' hsite
          refine ⟨ih1, ih2, ?_, ?_, ?_, ?_⟩
          · rw [ih3]
            show (report_proxy_result s.1 s.2 url' succ rt e now').1.successCount
                + (report_proxy_result s.1 s.2 url' succ rt e now').1.failureCount
                + countReports rest = _
            rw [hcnt]
            cases succ <;> simp [countReports, List.countP_cons] <;> omega
          · rw [ih4]
            show (report_proxy_result s.1 s.2 url' succ rt e now').1.totalRequests
                + countUsages rest = _
            rw [htr]
            cases succ <;> simp [countUsages, List.countP_cons]
          · rw [ih5]
            show (report_proxy_result s.1 s.2 url' succ rt e now').2.successCount
                + countSuccessReports rest = _
            rw [hsc]
            cases succ <;> simp [countSuccessReports, List.countP_cons] <;> omega
          · rw [ih6]
            show (report_proxy_result s.1 s.2 url' succ rt e now').2.totalCount
                + countSuccessReports rest = _
            rw [htc]
            cases succ <;> simp [countSuccessReports, List.countP_cons] <;> omega

lemma report_result_site_avg_false (h : ProxyHealth) (sp : SitePerf) (url : String)
    (rt : Option ℚ) (e : Option String) (now : ℚ) :
    (report_proxy_result h sp url false rt e now).2.avgResponseTime = sp.avgResponseTime
    ∧ (report_proxy_result h sp url false rt e now).2.totalCount = sp.totalCount := by
  cases rt <;> cases e <;> simp [report_proxy_result]

lemma report_result_site_avg_true (h : ProxyHealth) (sp : SitePerf) (url : String)
    (r : ℚ) (e : Option String) (now : ℚ) (hr : ¬(r = 0)) :
    (report_proxy_result h sp url true (some r) e now).2.avgResponseTime
        = (sp.avgResponseTime * (((sp.totalCount + 1 : ℕ) : ℚ) - 1) + r)
          / ((sp.totalCount + 1 : ℕ) : ℚ)
    ∧ (report_proxy_result h sp url true (some r) e now).2.totalCount
        = sp.totalCount + 1 := by
  cases e <;> simp [report_proxy_result, hr]


lemma applyProxyOps_site_avg (ops : List ProxyOp) (s : ProxyHealth × SitePerf)
    (hops : ops.all successRtTruthy = true) :
    (applyProxyOps s ops).2.avgResponseTime * (((applyProxyOps s ops).2.totalCount : ℕ) : ℚ)
      = s.2.avgResponseTime * ((s.2.totalCount : ℕ) : ℚ) + sumSuccessRt ops
    ∧ (countSuccessReports ops = 0 →
        (applyProxyOps s ops).2.avgResponseTime = s.2.avgResponseTime) := by
  induction ops generalizing s with
  | nil =>
      simp [applyProxyOps, sumSuccessRt]
  | cons op rest ih =>
      simp only [List.all_cons, Bool.and_eq_true] at hops
      have hfold : applyProxyOps s (op :: rest) = applyProxyOps (applyProxyOp s op) rest := by
        simp [applyProxyOps, List.foldl_cons]
      rw [hfold]
      obtain ⟨ihA, ihB⟩ := ih (applyProxyOp s op) hops.2
      cases op with
      | usage now' =>
          constructor
          · rw [ihA]
            simp [applyProxyOp, sumSuccessRt]
          · intro hzero
            have hz : countSuccessReports rest = 0 := by
              simpa [countSuccessReports, List.countP_cons] using hzero
            rw [ihB hz]
            simp [applyProxyOp]
      | report url' succ rt e now' =>
          cases succ with
          | false =>
              obtain ⟨ha, htc⟩ := report_result_site_avg_false s.1 s.2 url' rt e now'
              constructor
              · rw [ihA]
                show (report_proxy_result s.1 s.2 url' false rt e now').2.avgResponseTime
                      * (((report_proxy_result s.1 s.2 url' false rt e now').2.totalCount : ℕ) : ℚ)
                      + sumSuccessRt rest = _
                rw [ha, htc]
                simp [sumSuccessRt]
              · intro hzero
                have hz : countSuccessReports rest = 0 := by
                  simpa [countSuccessReports, List.countP_cons] using hzero
                rw [ihB hz]
                show (report_proxy_result s.1 s.2 url' false rt e now').2.avgResponseTime = _
                rw [ha]
          | true =>
              rcases rt with _ | r
              · exact absurd hops.1 (by simp [successRtTruthy])
              · have hr : ¬(r = 0) := by
                  by_contra hr0
                  simp [successRtTruthy, hr0] at hops
                obtain ⟨ha, htc⟩ := report_result_site_avg_true s.1 s.2 url' r e now' hr
                have hne : (((s.2.totalCount + 1 : ℕ) : ℚ)) ≠ 0 := by positivity
                constructor
                · rw [ihA]
                  show (report_proxy_result s.1 s.2 url' true (some r) e now').2.avgResponseTime
                        * (((report_proxy_result s.1 s.2 url' true (some r) e now').2.totalCount : ℕ) : ℚ)
                        + sumSuccessRt rest = _
                  rw [ha, htc]
                  rw [div_mul_eq_mul_div, mul_div_cancel_right₀ _ hne]
                  simp only [sumSuccessRt]
                  push_cast
                  ring
                · intro hzero
                  rw [countSuccessReports, List.countP_cons] at hzero
                  simp at hzero

/-- One outcome report with no preceding usage update, for the C2
counterexample. -/
def oneReportOp : List ProxyOp := [ .report "u" true none none 0 ]

/-- **C2 counterexample.** A single `report_proxy_result` on a fresh
proxy leaves `success_count + failure_count = 1` while `total_requests`
(incremented only by `_update_proxy_usage` during selection) is still 0,
so the claimed invariant fails for this operation sequence. -/
theorem proxyTotals_invariant_counterexample :
    (applyProxyOps (freshProxyHealth, freshSitePerf) oneReportOp).1.successCount
      + (applyProxyOps (freshProxyHealth, freshSitePerf) oneReportOp).1.failureCount = 1
    ∧ (applyProxyOps (freshProxyHealth, freshSitePerf) oneReportOp).1.totalRequests = 0
    ∧ (1 : ℕ) ≠ 0 := by
  refine ⟨rfl, rfl, by norm_num⟩

/-- **C2 amended.** After any operation sequence, `success_count +
failure_count` equals the number of outcome reports and `total_requests`
equals the number of usage updates; the claimed equality therefore holds
exactly when every selection is matched by exactly one report. -/
theorem proxyCounters_track_operations (ops : List ProxyOp) :
    (applyProxyOps (freshProxyHealth, freshSitePerf) ops).1.successCount
      + (applyProxyOps (freshProxyHealth, freshSitePerf) ops).1.failureCount
      = countReports ops
    ∧ (applyProxyOps (freshProxyHealth, freshSitePerf) ops).1.totalRequests
      = countUsages ops := by
  have h := applyProxyOps_spec ops (freshProxyHealth, freshSitePerf)
    (by simp [healthRateInv, freshProxyHealth])
    (by simp [sitePerfInv, freshSitePerf])
  refine ⟨?_, ?_⟩
  · have := h.2.2.1
    simpa [freshProxyHealth] using this
  · have := h.2.2.2.1
    simpa [freshProxyHealth] using this

/-- A proxy with exactly 20 total requests and zero success rate, for
the C8 counterexample. -/
def borderlineProxy : String × ProxyHealth :=
  ("proxy-20", { freshProxyHealth with totalRequests := 20, successRate := 0 })

/-- **C8 counterexample.** A proxy with exactly 20 total requests and a
0% success rate satisfies the claim's removal condition (≥ 20 requests,
rate below threshold) yet `cleanup_failed_proxies` keeps it: the code's
guard is strictly `total_requests > 20`. -/
theorem pruneFailing_boundary_counterexample :
    20 ≤ borderlineProxy.2.totalRequests
    ∧ borderlineProxy.2.successRate < (3/10) * 100
    ∧ cleanup_failed_proxies [ borderlineProxy ] (3/10) = [ borderlineProxy ] := by
  refine ⟨by norm_num [borderlineProxy, freshProxyHealth], ?_, ?_⟩
  · norm_num [borderlineProxy, freshProxyHealth]
  · norm_num [cleanup_failed_proxies, borderlineProxy, freshProxyHealth]

/-- **C8 amended.** `cleanup_failed_proxies` retains exactly the proxies
that do NOT have both more than 20 (i.e. at least 21) total requests and
a success-rate percentage below `threshold × 100`; in particular a proxy
with at most 20 total requests is never removed. -/
theorem pruneFailing_membership (pool : List (String × ProxyHealth)) (threshold : ℚ)
    (p : String × ProxyHealth) :
    p ∈ cleanup_failed_proxies pool threshold ↔
      (p ∈ pool ∧ ¬(20 < p.2.totalRequests ∧ p.2.successRate < threshold * 100)) := by
  simp [cleanup_failed_proxies, List.mem_filter, not_and, Decidable.not_not]
  intro _
  constructor
  · rintro (h | h) hlt
    · exact absurd hlt (not_lt.mpr h)
    · exact h
  · intro h
    rcases le_or_lt p.2.totalRequests 20 with h' | h'
    · exact Or.inl h'
    · exact Or.inr (h h')

/-- A success report followed by a failure report for the same
(proxy, domain) pair, for the C9 counterexample. -/
def successThenFailureOps : List ProxyOp :=
  [ .report "u" true (some 1) none 0, .report "u" false none none 1 ]

/-- **C9 counterexample.** After one success and one failure reported for
the pair, the SitePerformance success rate is 1 — not 1/2, the ratio of
successes over all outcomes reported for the pair that the claim
prescribes — because `report_proxy_result` touches the site counters only
on success. -/
theorem siteSuccessRate_counterexample :
    countSuccessReports successThenFailureOps = 1
    ∧ countReports successThenFailureOps = 2
    ∧ (applyProxyOps (freshProxyHealth, freshSitePerf) successThenFailureOps).2.successRate = 1
    ∧ (applyProxyOps (freshProxyHealth, freshSitePerf) successThenFailureOps).2.successRate
        ≠ (countSuccessReports successThenFailureOps : ℚ)
          / (countReports successThenFailureOps : ℚ) := by
  refine ⟨rfl, rfl, ?_, ?_⟩
  · norm_num [successThenFailureOps, applyProxyOps, applyProxyOp, report_proxy_result,
      freshProxyHealth, freshSitePerf]
  · norm_num [successThenFailureOps, applyProxyOps, applyProxyOp, report_proxy_result,
      freshProxyHealth, freshSitePerf, countReports, countSuccessReports, List.countP_cons]

/-- **C9 amended.** `report_proxy_result` updates the global ProxyHealth
on every report — its success-rate percentage always equals
`successCount/(successCount+failureCount)×100` — but the SitePerformance
entry's counters and response-time average only on success reports:
`successCount` and `totalCount` both count success reports, so the
stored site success rate is their quotient (1.0 once any success has
been reported, 0 before), and whenever every success report carries a
truthy response time the stored average response time is the
incrementally maintained mean of the success reports' response times
(0 while no success has been reported). -/
theorem siteAndHealthRates_amended (ops : List ProxyOp) :
    (applyProxyOps (freshProxyHealth, freshSitePerf) ops).2.successCount
      = countSuccessReports ops
    ∧ (applyProxyOps (freshProxyHealth, freshSitePerf) ops).2.totalCount
      = countSuccessReports ops
    ∧ (applyProxyOps (freshProxyHealth, freshSitePerf) ops).2.successRate
      = (if 0 < countSuccessReports ops then 1 else 0)
    ∧ (applyProxyOps (freshProxyHealth, freshSitePerf) ops).1.successRate
      = (if 0 < countReports ops
         then ((applyProxyOps (freshProxyHealth, freshSitePerf) ops).1.successCount : ℚ)
              / (countReports ops : ℚ) * 100
         else 100)
    ∧ (ops.all successRtTruthy = true →
        (applyProxyOps (freshProxyHealth, freshSitePerf) ops).2.avgResponseTime
          = (if 0 < countSuccessReports ops
             then sumSuccessRt ops / (countSuccessReports ops : ℚ)
             else 0)) := by
  have h := applyProxyOps_spec ops (freshProxyHealth, freshSitePerf)
    (by simp [healthRateInv, freshProxyHealth])
    (by simp [sitePerfInv, freshSitePerf])
  obtain ⟨hh, ⟨hsc, hsr⟩, hcnt, htr, hssc, hstc⟩ := h
  have hssc' : (applyProxyOps (freshProxyHealth, freshSitePerf) ops).2.successCount
      = countSuccessReports ops := by simpa [freshSitePerf] using hssc
  have hstc' : (applyProxyOps (freshProxyHealth, freshSitePerf) ops).2.totalCount
      = countSuccessReports ops := by simpa [freshSitePerf] using hstc
  have hcnt' : (applyProxyOps (freshProxyHealth, freshSitePerf) ops).1.successCount
      + (applyProxyOps (freshProxyHealth, freshSitePerf) ops).1.failureCount
      = countReports ops := by simpa [freshProxyHealth] using hcnt
  refine ⟨hssc', hstc', ?_, ?_, ?_⟩
  · rw [hsr, hstc']
  · rw [hh, hcnt']
  · intro hops
    obtain ⟨havg, hzero⟩ := applyProxyOps_site_avg ops (freshProxyHealth, freshSitePerf) hops
    rw [hstc'] at havg
    simp only [freshSitePerf] at havg hzero
    rcases Nat.eq_zero_or_pos (countSuccessReports ops) with hc | hc
    · rw [if_neg (by omega)]
      simpa using hzero hc
    · rw [if_pos hc]
      have hne : ((countSuccessReports ops : ℕ) : ℚ) ≠ 0 :=
        Nat.cast_ne_zero.mpr (by omega)
      rw [eq_div_iff hne]
      simpa using havg

/-- **C10.** For the ban types missing from the preference table (NONE,
ACCESS_DENIED, TEMPORARY, PERMANENT), when the domain is not abandoned
(score at least 0.3 and at most 10 bans) and no successful recovery was
recorded for this ban type, `get_recovery_strategy` falls back to the
dict-lookup default `[WAIT]` and returns WAIT. -/
theorem getRecoveryStrategy_default_wait (r : Reputation)
    (recoveries : List SuccessfulRecovery) (bt : BanType)
    (hbt : bt = .NONE ∨ bt = .ACCESS_DENIED ∨ bt = .TEMPORARY ∨ bt = .PERMANENT)
    (hscore : 3/10 ≤ r.score) (hbans : r.bans ≤ 10)
    (hrec : ∀ pr ∈ recoveries, pr.banType ≠ bt) :
    get_recovery_strategy r recoveries bt = .WAIT := by
  have hfind : recoveries.find? (fun pr => pr.banType = bt) = none := by
    apply List.find?_eq_none.mpr
    intro pr hpr
    simp [hrec pr hpr]
  have hlookup : recoveryStrategies.lookup bt = none := by
    rcases hbt with h | h | h | h <;> subst h <;> rfl
  simp [get_recovery_strategy, hlookup, hfind, not_lt.mpr hscore, not_lt.mpr hbans]

/-- Witness for C10 at concrete inputs. -/
theorem getRecoveryStrategy_default_wait_witness :
    get_recovery_strategy freshReputation [] BanType.NONE = .WAIT :=
  getRecoveryStrategy_default_wait freshReputation [] .NONE (Or.inl rfl)
    (by norm_num [freshReputation]) (by norm_num [freshReputation])
    (by intro pr hpr; simp at hpr)

lemma bodyScanList_no_match (content : List Char) (l : List (BanType × List RE))
    (s : BanType × ℚ)
    (h : l.all (fun bp => bp.2.all (fun p => !(reSearch p content))) = true) :
    bodyScanList content l s = s := by
  induction l generalizing s with
  | nil => rfl
  | cons bp rest ih =>
      simp only [List.all_cons, Bool.and_eq_true] at h
      have hms : (bp.2.filter (fun p => reSearch p content)).length = 0 := by
        rw [List.length_eq_zero]
        apply List.filter_eq_nil.mpr
        intro p hp
        have := List.all_eq_true.mp h.1 p hp
        simp only [Bool.not_eq_true'] at this
        simp [this]
      simp only [bodyScanList, hms]
      simp only [lt_irrefl, if_false]
      exact ih s h.2

lemma headerStep_no_signal (hdrs : List (String × String)) (s : BanType × ℚ)
    (h1 : hasKey (headersLower hdrs) ("cf-ray".toList) = false)
    (h2 : hasKey (headersLower hdrs) ("cf-cache-status".toList) = false)
    (h3 : hasKey (headersLower hdrs) ("retry-after".toList) = false)
    (h4 : (hasKey (headersLower hdrs) ("x-ratelimit-remaining".toList) &&
        (getLastValue (headersLower hdrs) ("x-ratelimit-remaining".toList) ("1".toList)
          == "0".toList)) = false) :
    headerStep hdrs s = Sum.inr s := by
  simp at h1 h2 h3 h4
  simp [headerStep, h1, h2, h3, h4]
  exact h4

lemma errorPageStep_no_indicator (content : List Char) (s : BanType × ℚ)
    (h : errorIndicators.all (fun ind => !(containsSub ind.toList content)) = true) :
    errorPageStep content s = s := by
  have hany : errorIndicators.any (fun ind => containsSub ind.toList content) = false := by
    simp only [List.any_eq_false]
    intro ind hind
    have := List.all_eq_true.mp h ind hind
    simpa using this
  simp [errorPageStep, hany]
  intro _ x hx hcontain
  have hx' := List.all_eq_true.mp h x hx
  simp only [Bool.not_eq_true'] at hx'
  exact absurd hcontain (by simpa using hx')

lemma statusPrior_low (n : ℕ) (h : n < 400) : statusPrior n = (.NONE, 0) := by
  unfold statusPrior
  split_ifs with h1 h2 h3
  · exact absurd h1 (by omega)
  · exact absurd h2 (by omega)
  · exact absurd h3 (by omega)
  · rfl


/-- **C5.** `detect_ban` is a total function of its input (modelling that
classification never raises for any combination of present/absent status
code, body and string-valued headers), and on an input carrying no ban
signal — no truthy status code of 400 or above, no body pattern match, no
error-page indicator, and none of the header signals — it returns
`(NONE, 0.0)`. -/
theorem detectBan_no_signal (inp : FetchInput) (h : noBanSignalB inp = true) :
    detect_ban inp = (BanType.NONE, 0) := by
  unfold noBanSignalB at h
  simp only [Bool.and_eq_true] at h
  obtain ⟨⟨⟨hstatus, hbody⟩, hind⟩, hhdr⟩ := h
  simp only [Bool.and_eq_true, Bool.not_eq_true'] at hhdr
  obtain ⟨⟨⟨hcf1, hcf2⟩, hra⟩, hxr⟩ := hhdr
  have hafter : ∀ s1 : BanType × ℚ,
      (if inp.headers.isEmpty then Sum.inr s1 else headerStep inp.headers s1) = Sum.inr s1 := by
    intro s1
    by_cases he : inp.headers.isEmpty
    · simp [he]
    · rw [if_neg he]
      exact headerStep_no_signal inp.headers s1 hcf1 hcf2 hra hxr
  have hrest : detectRest inp (BanType.NONE, 0) = (BanType.NONE, 0) := by
    unfold detectRest
    rcases hh : inp.htmlContent with _ | htmlStr
    · simp only [hh, Bool.false_eq_true, if_false]
      rw [hafter (BanType.NONE, 0)]
    · simp only [hh] at hbody hind ⊢
      by_cases he : htmlStr.isEmpty
      · simp only [he, Bool.not_true, Bool.false_eq_true, if_false]
        rw [hafter (BanType.NONE, 0)]
      · simp only [he, Bool.not_false, if_true]
        have hscan : bodyScan (htmlStr.toList.map Char.toLower) (BanType.NONE, 0)
            = (BanType.NONE, 0) :=
          bodyScanList_no_match (htmlStr.toList.map Char.toLower) banPatterns
            (BanType.NONE, 0) hbody
        rw [hscan, hafter (BanType.NONE, 0)]
        exact errorPageStep_no_indicator (htmlStr.toList.map Char.toLower)
          (BanType.NONE, 0) hind
  rcases hsc : inp.statusCode with _ | n
  · unfold detect_ban
    rw [hsc]
    exact hrest
  · unfold detect_ban
    rw [hsc]
    simp only [hsc] at hstatus
    simp only [Bool.or_eq_true, beq_iff_eq, decide_eq_true_eq] at hstatus
    show (if n ≠ 0 then
            if n = 429 then (BanType.RATE_LIMIT, 95/100) else detectRest inp (statusPrior n)
          else detectRest inp (BanType.NONE, 0)) = (BanType.NONE, 0)
    split_ifs with hn0 h429
    · exfalso
      rcases hstatus with h0 | hlt
      · exact hn0 h0
      · omega
    · rcases hstatus with h0 | hlt
      · exact absurd h0 hn0
      · rw [statusPrior_low n hlt]
        exact hrest
    · exact hrest

/-- A benign fetch outcome with no ban signal, for the C5 witness. -/
def quietInput : FetchInput :=
  { statusCode := some 200
    htmlContent := some "hello world"
    headers := [ ("content-type", "text/html") ] }

/-- Witness for C5 at a concrete benign input. -/
theorem detectBan_no_signal_witness :
    noBanSignalB quietInput = true ∧ detect_ban quietInput = (BanType.NONE, 0) :=
  ⟨by decide, detectBan_no_signal quietInput (by decide)⟩

/-- Witness for the C9 amended theorem at a concrete operation sequence
whose success report carries a response time. -/
theorem siteAndHealthRates_amended_witness :
    successThenFailureOps.all successRtTruthy = true
    ∧ (applyProxyOps (freshProxyHealth, freshSitePerf) successThenFailureOps).2.avgResponseTime
        = (if 0 < countSuccessReports successThenFailureOps
           then sumSuccessRt successThenFailureOps
                / (countSuccessReports successThenFailureOps : ℚ)
           else 0) :=
  ⟨by decide, (siteAndHealthRates_amended successThenFailureOps).2.2.2.2 (by decide)⟩
